import Mathlib

/-!
Verification of the faceted-search core of the `focus4` UI library:
the validator engine (`src/validation.ts`) and the `SearchStore`
(search criteria, request building, result handling, selection,
group-scoped views).  JavaScript runtime values relevant to the code
(`undefined`, `null`, strings, numbers) are embedded as `JSValue`;
external collaborators (the `translate` i18n function, `moment` date
parsing, the e-mail regular expression) are abstracted into a `JSEnv`
record of functions.
-/

namespace Focus4

/-- A JavaScript value as the validation / criteria code manipulates it:
`undefined`, `null`, a string or a number (the code only ever works with
integral numbers, so numbers are embedded as `Int`). -/
inductive JSValue where
  | undef : JSValue
  | null : JSValue
  | str : String → JSValue
  | num : Int → JSValue
deriving DecidableEq, Repr

namespace JSValue

/-- JavaScript `String(v)` on the values of `JSValue`. -/
def toStr : JSValue → String
  | .undef => "undefined"
  | .null => "null"
  | .str s => s
  | .num n => toString n

end JSValue

/-- Parse a list of decimal digits; `none` when empty or a non-digit occurs. -/
def digitsToNat (cs : List Char) : Option Nat :=
  if cs.isEmpty then none
  else if cs.all Char.isDigit then
    some (cs.foldl (fun acc c => acc * 10 + (c.toNat - 48)) 0)
  else none

/-- The characters of `s` with leading and trailing whitespace removed. -/
def jsTrim (s : String) : List Char :=
  ((s.toList.dropWhile Char.isWhitespace).reverse.dropWhile Char.isWhitespace).reverse

/-- JavaScript numeric coercion `+s` of a string, restricted to the integral
strings the code manipulates: the empty (or all-blank) string coerces to `0`,
an optionally signed digit string to its value, anything else to `NaN`
(modelled as `none`). -/
def strToInt (s : String) : Option Int :=
  match jsTrim s with
  | [] => some 0
  | c :: rest =>
    if c = Char.ofNat 45 then (digitsToNat rest).map (fun n => -(n : Int))
    else if c = Char.ofNat 43 then (digitsToNat rest).map (fun n => (n : Int))
    else (digitsToNat (c :: rest)).map (fun n => (n : Int))

/-- JavaScript numeric coercion `+v` (`NaN` is `none`). -/
def JSValue.toNumber : JSValue → Option Int
  | .undef => none
  | .null => some 0
  | .num n => some n
  | .str s => strToInt s

/-- External collaborators of the validation code: the `translate` i18n
function, `moment(value).isValid()` date parsing and the `EMAIL_REGEX` test. -/
structure JSEnv where
  translate : String → String
  dateValid : JSValue → Bool
  emailTest : String → Bool

/-- `NumberOptions` of `validation.ts`. -/
structure NumberOptions where
  translationKey : Option String := none
  min : Option Int := none
  max : Option Int := none

/-- `StringOptions` of `validation.ts`. -/
structure StringOptions where
  translationKey : Option String := none
  minLength : Option Nat := none
  maxLength : Option Nat := none

/-- The typed validator descriptors of `validation.ts` (`Validator` union).
The `regex` and `function` validators carry their test as a Lean function,
abstracting the `RegExp` object and the caller-supplied predicate. -/
inductive Validator where
  | required (value : Bool) (translationKey : Option String := none)
  | regex (test : String → Bool) (translationKey : Option String := none)
  | email (translationKey : Option String := none)
  | number (options : Option NumberOptions := none)
  | string (options : Option StringOptions := none)
  | date (translationKey : Option String := none)
  | function (value : JSValue → Bool) (translationKey : Option String := none)

/-- `numberValidator` of `validation.ts`: `undefined`/`null` are valid, a
non-numeric coercion is invalid, otherwise the optional inclusive `min`/`max`
bounds are checked. -/
def numberValidator (text : JSValue) (options : Option NumberOptions) : Bool :=
  if text = .undef ∨ text = .null then true
  else
    match text.toNumber with
    | none => false
    | some n =>
      match options with
      | none => true
      | some o =>
        let isMin := match o.min with | some m => decide (n ≥ m) | none => true
        let isMax := match o.max with | some m => decide (n ≤ m) | none => true
        isMin && isMax

/-- JavaScript `value.length` as the string validator reads it: defined only
for strings (`undefined` otherwise, making both bound comparisons false). -/
def jsLength : JSValue → Option Nat
  | .str s => some s.length
  | _ => none

/-- `stringValidator` of `validation.ts`: with no options everything is valid;
otherwise `minLength` defaults to `0` and the length must lie within the
inclusive bounds (a non-string value has `undefined` length, so every bound
comparison on it is false). -/
def stringValidator (text : JSValue) (options : Option StringOptions) : Bool :=
  match options with
  | none => true
  | some o =>
    match jsLength text with
    | none => false
    | some len =>
      let isMinLength := decide (len ≥ o.minLength.getD 0)
      let isMaxLength := match o.maxLength with | some m => decide (len ≤ m) | none => true
      isMinLength && isMaxLength

/-- JavaScript truthiness-based `value || ""` coercion used by the `string`
branch of `validateProperty`. -/
def jsOrEmptyString (v : JSValue) : JSValue :=
  match v with
  | .undef | .null => .str ""
  | .str s => .str s
  | .num n => if n = 0 then .str "" else .num n

/-- `getErrorLabel` of `validation.ts`: translates `options.translationKey`
when supplied, else the conventional `domain.validation.<type>` key. -/
def getErrorLabel (env : JSEnv) (type : String) (translationKey : Option String) : String :=
  env.translate (match translationKey with | some k => k | none => "domain.validation." ++ type)

/-- A `{name, value}` pair as handed to `validate` (the unused `modelName`
is omitted: `getErrorLabel` ignores its `fieldName` argument). -/
structure ValidationProperty where
  name : String
  value : JSValue

/-- `validateProperty` of `validation.ts`: evaluates one validator against the
property's value and returns the translated error message when it fails,
`none` when it passes. -/
def validateProperty (env : JSEnv) (property : ValidationProperty) (validator : Validator) :
    Option String :=
  let value := property.value
  let isValueNullOrUndefined := value = .null ∨ value = .undef
  let isValid : Bool :=
    match validator with
    | .required v _ =>
      let prevalidString := !(value = .str "")
      if v then !(value = .null) && !(value = .undef) && prevalidString else true
    | .regex test _ =>
      if isValueNullOrUndefined then true else test value.toStr
    | .email _ =>
      if isValueNullOrUndefined then true else env.emailTest value.toStr
    | .number o => numberValidator value o
    | .string o => stringValidator (jsOrEmptyString value) o
    | .date _ => env.dateValid value
    | .function f _ => f value
  if isValid then none
  else
    some (getErrorLabel env
      (match validator with
        | .required _ _ => "required" | .regex _ _ => "regex" | .email _ => "email"
        | .number _ => "number" | .string _ => "string" | .date _ => "date"
        | .function _ _ => "function")
      (match validator with
        | .required _ k => k | .regex _ k => k | .email k => k
        | .number o => o.bind (·.translationKey) | .string o => o.bind (·.translationKey)
        | .date k => k | .function _ k => k))

/-- The `{name, value, isValid, errors}` record returned by `validate`. -/
structure ValidationResult where
  name : String
  value : JSValue
  isValid : Bool
  errors : List String

/-- `validate` of `validation.ts`: runs every validator in order, pushing each
failing validator's message onto `errors`; `isValid` iff no error was pushed. -/
def validate (env : JSEnv) (property : ValidationProperty)
    (validators : Option (List Validator)) : ValidationResult :=
  let errors : List String :=
    match validators with
    | none => []
    | some vs =>
      vs.foldl (fun acc v =>
        match validateProperty env property v with
        | some res => acc ++ [res]
        | none => acc) []
  { name := property.name
    value := property.value
    isValid := errors.length = 0
    errors := errors }

/-- One field of the custom-criteria `StoreNode`: its current value and the
optional validator list of its domain (`none` covers both "no domain" and
"domain without validator", the two cases the `domain && domain.validator`
guard conflates). -/
structure EntityFieldM where
  value : JSValue
  validator : Option (List Validator) := none

/-- The custom-criteria node, as the ordered collection of its fields
(the `"set"`/`"clear"` methods that the `for … in` loops skip are not part of
the model). A JavaScript object cannot hold two fields of the same name, so
meaningful states have `Nodup` keys. -/
abbrev CriteriaNode := List (String × EntityFieldM)

/-- Whether one criteria field is currently in error, as `criteriaErrors`
computes it for each key: only a field with a validator and a value that is
neither `undefined` nor `null` is validated, and it is in error exactly when
`validate` returns a non-empty `errors` array. -/
def critFieldError (env : JSEnv) (e : EntityFieldM) : Bool :=
  match e.validator with
  | none => false
  | some vs =>
    if e.value ≠ .undef ∧ e.value ≠ .null then
      (validate env { name := "", value := e.value } (some vs)).errors.length ≠ 0
    else false

/-- `criteriaErrors` of `SearchStore`: the key-to-boolean error map over the
criteria fields. -/
def criteriaErrors (env : JSEnv) (criteria : CriteriaNode) : List (String × Bool) :=
  criteria.map (fun ke => (ke.1, critFieldError env ke.2))

/-- Reading `errorsObject[key]` from the `criteriaErrors` map (`false` when the
key is absent, which cannot happen for the keys the code reads). -/
def lookupError (errors : List (String × Bool)) (key : String) : Bool :=
  match errors.find? (fun p => p.1 = key) with
  | some p => p.2
  | none => false

/-- Modelled from the spec: `toFlatValues` of the entity module (not under
`src/`), which turns the criteria `StoreNode` into the plain object of its
fields' values. -/
def toFlatValues (criteria : CriteriaNode) : List (String × JSValue) :=
  criteria.map (fun ke => (ke.1, ke.2.value))

/-- `flatCriteria` of `SearchStore`: the flat values of the criteria node with
the fields in error deleted, then the fields whose value is the empty string
or `undefined` deleted. -/
def flatCriteria (env : JSEnv) (criteria : CriteriaNode) : List (String × JSValue) :=
  let flat := toFlatValues criteria
  let afterErrors := flat.filter (fun kv => !lookupError (criteriaErrors env criteria) kv.1)
  afterErrors.filter (fun kv => !(kv.2 = .str "" ∨ kv.2 = .undef))

/-- A facet of the search response (`FacetOutput`); its `values` play no role
in the store logic and are omitted. -/
structure FacetOutput where
  code : String
  label : Option String := none
deriving DecidableEq, Repr

/-- One group of a grouped search response (`GroupResult<T>`). -/
structure GroupResult (T : Type) where
  code : String
  label : Option String := none
  list : List T
  totalCount : Option Nat := none
deriving DecidableEq, Repr

/-- The observable state of a `SearchStore` (criteria fields inherited from
`ListStoreBase` — `query`, `sortAsc`, `sortBy`, `top`, `pendingCount`,
`serverCount`, `selectedList` — are modelled from the spec, `ListStoreBase`
not being under `src/`: `selectedList` is the shared ordered selection whose
element set is the `selectedItems` selection set). -/
structure SearchStore (T : Type) where
  blockSearch : Bool := false
  query : Option String := none
  groupingKey : Option String := none
  selectedFacets : List (String × String) := []
  sortAsc : Option Bool := none
  sortBy : Option String := none
  top : Option Nat := none
  criteria : CriteriaNode := []
  facets : List FacetOutput := []
  list : List T := []
  groups : List (GroupResult T) := []
  serverCount : Nat := 0
  pendingCount : Nat := 0
  selectedList : List T := []

namespace SearchStore

variable {T : Type}

/-- `flatResultList`: the flat results across groups when grouped, else the
flat list. -/
def flatResultList (s : SearchStore T) : List T :=
  if s.groups.length ≠ 0 then (s.groups.map (fun g => g.list)).flatten
  else s.list

/-- `currentCount`: the number of materialized flat results. -/
def currentCount (s : SearchStore T) : Nat :=
  s.flatResultList.length

/-- Modelled from the spec: the size of the `selectedItems` selection set of
`ListStoreBase` (not under `src/`) — the number of distinct items currently
held in the shared selection. -/
def selectedSize [DecidableEq T] (s : SearchStore T) : Nat :=
  s.selectedList.dedup.length

/-- `toggleAll` of `SearchStore`: clear the selection when every materialized
item is selected (selected count equals `currentCount`), else select the whole
flat result list. -/
def toggleAll [DecidableEq T] (s : SearchStore T) : SearchStore T :=
  if s.selectedSize = s.currentCount then { s with selectedList := [] }
  else { s with selectedList := s.flatResultList }

end SearchStore

/-- The `SearchProperties` argument of `setProperties`. The outer `Option`
distinguishes an absent key (`none`) from a present one (`hasOwnProperty`),
and the inner value is the possibly-`undefined` JavaScript value. -/
structure SearchProps where
  query : Option (Option String) := none
  groupingKey : Option (Option String) := none
  selectedFacets : Option (Option (List (String × String))) := none
  sortAsc : Option (Option Bool) := none
  sortBy : Option (Option String) := none
  top : Option (Option Nat) := none

/-- Reading `props.field`: an absent key reads as `undefined`. -/
def propRead {α : Type} (field : Option (Option α)) : Option α :=
  field.join

/-- JavaScript truthiness of a possibly-undefined string (`""` is falsy). -/
def truthyStr (v : Option String) : Bool :=
  match v with
  | some s => s ≠ ""
  | none => false

/-- JavaScript truthiness of a possibly-undefined number (`0` is falsy). -/
def truthyNat (v : Option Nat) : Bool :=
  match v with
  | some n => n ≠ 0
  | none => false

namespace SearchStore

variable {T : Type}

/-- `setProperties` of `SearchStore`: `groupingKey` and `sortBy` follow a
`hasOwnProperty` presence check, `sortAsc` a `!== undefined` check, and
`query`, `top` and `selectedFacets` plain truthiness (`||`). -/
def setProperties (s : SearchStore T) (props : SearchProps) : SearchStore T :=
  { s with
    groupingKey := if props.groupingKey.isSome then propRead props.groupingKey else s.groupingKey
    selectedFacets :=
      match propRead props.selectedFacets with
      | some f => f
      | none => s.selectedFacets
    sortAsc :=
      match propRead props.sortAsc with
      | some b => some b
      | none => s.sortAsc
    sortBy := if props.sortBy.isSome then propRead props.sortBy else s.sortBy
    query := if truthyStr (propRead props.query) then propRead props.query else s.query
    top := if truthyNat (propRead props.top) then propRead props.top else s.top }

end SearchStore

/-- The request object (`QueryInput`) built by `search`: the flat criteria
merged with the normalized `query`, the selected facets, the grouping key
(empty string when unset), the pagination offset, and the sort fields. -/
structure QueryInput where
  criteria : List (String × JSValue)
  facets : List (String × String)
  group : String
  skip : Nat
  sortDesc : Bool
  sortFieldName : Option String
  top : Option Nat
deriving Repr

/-- The response object (`QueryOutput<T>`): an optional flat list, optional
groups, the facets and the server-side total count. -/
structure QueryOutput (T : Type) where
  list : Option (List T) := none
  groups : Option (List (GroupResult T)) := none
  facets : List FacetOutput := []
  totalCount : Nat := 0

namespace SearchStore

variable {T : Type}

/-- The `data` object `search` sends to the service: the empty or missing
query is normalized to `"*"`, the object spread `{...flatCriteria, query}`
adds (or overrides) the `query` key, `skip` is the current list length on a
scroll and `0` otherwise, and `sortDesc` is `false` when `sortAsc` is
`undefined`, else the negation of `sortAsc`. -/
def buildRequest (env : JSEnv) (s : SearchStore T) (isScroll : Bool) : QueryInput :=
  let query := match s.query with
    | none => "*"
    | some q => if q = "" then "*" else q
  { criteria :=
      (flatCriteria env s.criteria).filter (fun kv => kv.1 ≠ "query") ++ [("query", .str query)]
    facets := s.selectedFacets
    group := s.groupingKey.getD ""
    skip := if isScroll then s.list.length else 0
    sortDesc := match s.sortAsc with | none => false | some b => !b
    sortFieldName := s.sortBy
    top := s.top }

/-- The observable outcome of one `search(isScroll)` call: blocked without a
request (`noop`), the service promise rejected after the pre-await mutations
(`rejected`, the rejection propagating to the caller), or the promise
resolved and the response was written back (`resolved`, carrying the request,
the returned response — whose `list` the scroll branch mutates in place —
and the final store). -/
inductive SearchOutcome (T : Type) where
  | noop (store : SearchStore T)
  | rejected (request : QueryInput) (store : SearchStore T)
  | resolved (request : QueryInput) (response : QueryOutput T) (store : SearchStore T)

/-- `search` of `SearchStore` against a service `svc` (a rejection of the
returned promise is `none`): a no-op when `blockSearch` is set; otherwise the
request is built, `pendingCount` is incremented and the selection cleared
before awaiting the service, and on resolution `pendingCount` is decremented,
a scroll response's list (an array is truthy even when empty) is prepended
with the old list, and `facets`, `list`, `groups` and `serverCount` are
replaced from the response. -/
def search (env : JSEnv) (s : SearchStore T) (isScroll : Bool)
    (svc : QueryInput → Option (QueryOutput T)) : SearchOutcome T :=
  if s.blockSearch then .noop s
  else
    let req := buildRequest env s isScroll
    let sMid : SearchStore T := { s with pendingCount := s.pendingCount + 1, selectedList := [] }
    match svc req with
    | none => .rejected req sMid
    | some response =>
      let response : QueryOutput T :=
        if isScroll ∧ response.list.isSome then
          { response with list := some (s.list ++ response.list.getD []) }
        else response
      .resolved req response
        { sMid with
          pendingCount := sMid.pendingCount - 1
          facets := response.facets
          list := response.list.getD []
          groups := response.groups.getD []
          serverCount := response.totalCount }

/-- The `list` getter of the group-scoped view returned by
`getSearchGroupStore(groupCode)`: the matching group's list, guarded to the
empty array when no group matches. -/
def groupStoreList (s : SearchStore T) (groupCode : String) : List T :=
  match s.groups.find? (fun g => g.code = groupCode) with
  | some g => g.list
  | none => []

/-- The `currentCount` getter of the group-scoped view:
`groups.find(...).totalCount || 0`. The lookup is dereferenced unguarded, so
a missing group throws a `TypeError` — modelled as `none`. -/
def groupStoreCurrentCount (s : SearchStore T) (groupCode : String) : Option Nat :=
  (s.groups.find? (fun g => g.code = groupCode)).map (fun g => g.totalCount.getD 0)

/-- The `totalCount` getter of the group-scoped view, identical to its
`currentCount`: unguarded, a missing group throws (`none`). -/
def groupStoreTotalCount (s : SearchStore T) (groupCode : String) : Option Nat :=
  (s.groups.find? (fun g => g.code = groupCode)).map (fun g => g.totalCount.getD 0)

/-- `toggleAll` of the group-scoped view: record whether every group item is
selected, remove each currently selected group item from the shared
`selectedList` (modelled from the spec as the ordered selection of
`ListStoreBase`; `remove` drops the first occurrence), then, when not all
were selected, push the whole group list. -/
def groupToggleAll [DecidableEq T] (s : SearchStore T) (groupCode : String) : SearchStore T :=
  let gl := s.groupStoreList groupCode
  let areAllItemsIn := gl.all (fun item => s.selectedList.contains item)
  let afterRemove := gl.foldl
    (fun acc item => if acc.contains item then acc.erase item else acc) s.selectedList
  { s with selectedList := if areAllItemsIn then afterRemove else afterRemove ++ gl }

/-- The `skip` field of the request a `search` call issued (`none` when the
call was blocked and issued none). -/
def SearchOutcome.requestSkip {T : Type} : SearchOutcome T → Option Nat
  | .noop _ => none
  | .rejected r _ => some r.skip
  | .resolved r _ _ => some r.skip

/-- The `sortDesc` field of the request a `search` call issued (`none` when
the call was blocked and issued none). -/
def SearchOutcome.requestSortDesc {T : Type} : SearchOutcome T → Option Bool
  | .noop _ => none
  | .rejected r _ => some r.sortDesc
  | .resolved r _ _ => some r.sortDesc

end SearchStore

/-! Concrete instances used to evaluate the model on explicit inputs. -/

/-- A concrete environment: identity translation, every date and e-mail
accepted. -/
def envC : JSEnv :=
  { translate := fun s => s, dateValid := fun _ => true, emailTest := fun _ => true }

/-- A service resolving every request with the empty response. -/
def svcEmpty : QueryInput → Option (QueryOutput Nat) := fun _ => some {}

/-- A service rejecting every request. -/
def svcFail : QueryInput → Option (QueryOutput Nat) := fun _ => none

/-- A store holding grouped results and an empty flat `list`. -/
def groupedStore : SearchStore Nat :=
  { groups := [{ code := "g", list := [1, 2] }], list := [] }

/-- A store with every criteria field at its default. -/
def plainStore : SearchStore Nat := {}

/-- A store already holding two flat results, about to scroll. -/
def scrollStore : SearchStore Nat := { list := [1, 2] }

/-- The response the scroll service returns: one further item. -/
def scrollResp : QueryOutput Nat := { list := some [7], totalCount := 3 }

/-- A service resolving every request with `scrollResp`. -/
def svcScroll : QueryInput → Option (QueryOutput Nat) := fun _ => some scrollResp

/-- The request `search(isScroll = true)` builds on `scrollStore`. -/
def scrollReq : QueryInput := SearchStore.buildRequest envC scrollStore true

/-- The response object after the scroll branch mutated its `list`. -/
def scrollOut : QueryOutput Nat := { list := some ([1, 2] ++ [7]), totalCount := 3 }

/-- The store after the scroll search resolved. -/
def scrollFinal : SearchStore Nat :=
  { scrollStore with
    pendingCount := 0, selectedList := [], facets := [], list := [1, 2] ++ [7],
    groups := [], serverCount := 3 }

/-- A store sorting ascending (`sortAsc = true`). -/
def ascStore : SearchStore Nat := { sortAsc := some true }

/-- A store whose search is blocked. -/
def blockedStore : SearchStore Nat :=
  { blockSearch := true, list := [4], selectedList := [4], serverCount := 9 }

/-- A store with results, facets and a selection, about to hit a failing
service. -/
def richStore : SearchStore Nat :=
  { query := some "q", list := [1, 2], facets := [{ code := "f" }],
    serverCount := 7, selectedList := [1] }

/-- A store whose five materialized results are all selected. -/
def fullSelStore : SearchStore Nat :=
  { list := [10, 20, 30, 40, 50], selectedList := [10, 20, 30, 40, 50] }

/-- A store with five materialized results of which three are selected. -/
def partSelStore : SearchStore Nat :=
  { list := [10, 20, 30, 40, 50], selectedList := [10, 20, 30] }

/-- A store holding two groups sharing one selection (item 2 of group `g1`
and item 9 of group `g2` are selected). -/
def twoGroupStore : SearchStore Nat :=
  { groups := [{ code := "g1", list := [1, 2] }, { code := "g2", list := [8, 9] }],
    selectedList := [2, 9] }

/-- A store whose `sortAsc` is `true`, to be updated. -/
def sortedStore : SearchStore Nat := { sortAsc := some true }

/-- A `setProperties` argument carrying `sortAsc: false` (present, defined,
not truthy). -/
def sortAscFalseProps : SearchProps := { sortAsc := some (some false) }

/-- The age/city criteria example: `{age: "", city: "Paris"}`, no
validators. -/
def ageCityCriteria : CriteriaNode :=
  [("age", { value := .str "" }), ("city", { value := .str "Paris" })]

/-! Theorems. -/

/-- The error-pushing loop of `validate` appends, after any prefix, exactly
the messages of the failing validators, in validator order. -/
theorem validate_foldl_eq_filterMap (env : JSEnv) (p : ValidationProperty) :
    ∀ (vs : List Validator) (acc : List String),
      vs.foldl (fun acc v =>
          match validateProperty env p v with
          | some res => acc ++ [res]
          | none => acc) acc
        = acc ++ vs.filterMap (validateProperty env p) := by
  intro vs
  induction vs with
  | nil => intro acc; simp
  | cons v vs ih =>
    intro acc
    simp only [List.foldl_cons, List.filterMap_cons]
    cases h : validateProperty env p v with
    | none => simp only [h]; rw [ih]
    | some r => simp only [h]; rw [ih]; simp

/-- C5: with `blockSearch` set, `search(isScroll)` is a no-op: no request is
built and no service invoked (the outcome is `noop`, mentioning no service
response), and the store — `pendingCount`, selection, `facets`, `list`,
`groups`, `serverCount`, `criteria` and all — is returned unchanged. -/
theorem search_blocked_is_noop {T : Type} (env : JSEnv) (s : SearchStore T) (isScroll : Bool)
    (svc : QueryInput → Option (QueryOutput T)) (h : s.blockSearch = true) :
    SearchStore.search env s isScroll svc = SearchStore.SearchOutcome.noop s := by
  simp [SearchStore.search, h]

/-- C5 witness: a concrete blocked store is returned untouched. -/
theorem search_blocked_is_noop_witness :
    SearchStore.search envC blockedStore false svcEmpty
      = SearchStore.SearchOutcome.noop blockedStore :=
  search_blocked_is_noop envC blockedStore false svcEmpty rfl

/-- C9: when the store is not blocked and the service rejects, the rejection
propagates to the caller (`rejected` outcome) and the store is left with
`pendingCount` incremented — never decremented for that request — and the
selection already cleared, every other field (`facets`, `list`, `groups`,
`serverCount`, `criteria`, …) keeping its pre-call value. -/
theorem search_rejection_state {T : Type} (env : JSEnv) (s : SearchStore T) (isScroll : Bool)
    (svc : QueryInput → Option (QueryOutput T)) (hb : s.blockSearch = false)
    (hr : svc (SearchStore.buildRequest env s isScroll) = none) :
    SearchStore.search env s isScroll svc
      = SearchStore.SearchOutcome.rejected (SearchStore.buildRequest env s isScroll)
          { s with pendingCount := s.pendingCount + 1, selectedList := [] } := by
  simp [SearchStore.search, hb, hr]

/-- C9 witness: a concrete search against a rejecting service leaves the
incremented pending count, the cleared selection and all prior results. -/
theorem search_rejection_state_witness :
    SearchStore.search envC richStore false svcFail
      = SearchStore.SearchOutcome.rejected (SearchStore.buildRequest envC richStore false)
          { richStore with pendingCount := richStore.pendingCount + 1, selectedList := [] } :=
  search_rejection_state envC richStore false svcFail rfl rfl

/-- C10: when no group of the store carries `groupCode`, the group-scoped
view's `currentCount` and `totalCount` getters dereference the failed lookup
and throw (modelled as `none`), while its `list` getter is guarded and
returns the empty list. -/
theorem groupStore_missing_group_behavior {T : Type} (s : SearchStore T) (groupCode : String)
    (h : s.groups.find? (fun g => g.code = groupCode) = none) :
    s.groupStoreCurrentCount groupCode = none ∧ s.groupStoreTotalCount groupCode = none ∧
      s.groupStoreList groupCode = [] := by
  simp [SearchStore.groupStoreCurrentCount, SearchStore.groupStoreTotalCount,
    SearchStore.groupStoreList, h]

/-- C10 witness: on a store holding only group `"g"`, the view for the absent
group `"missing"` throws from both counts and yields the empty list. -/
theorem groupStore_missing_group_behavior_witness :
    groupedStore.groupStoreCurrentCount "missing" = none ∧
      groupedStore.groupStoreTotalCount "missing" = none ∧
      groupedStore.groupStoreList "missing" = [] :=
  groupStore_missing_group_behavior groupedStore "missing" (by decide)

/-- C2 counterexample: `setProperties` updates `sortAsc` through a
`!== undefined` check, not truthiness — supplying the non-truthy value
`false` on a store whose `sortAsc` is `true` does change it, refuting the
claim that `sortAsc` is updated only when the supplied value is truthy. -/
theorem setProperties_sortAsc_truthiness_refuted :
    (SearchStore.setProperties sortedStore sortAscFalseProps).sortAsc = some false ∧
      sortedStore.sortAsc = some true ∧ sortAscFalseProps.sortAsc = some (some false) :=
  ⟨rfl, rfl, rfl⟩

/-- C2 amended: `groupingKey` and `sortBy` update whenever their key is
present (so an explicit `undefined` clears them); `sortAsc` updates whenever
the supplied value is defined (so `false` does update it); `query`, `top` and
`selectedFacets` update only when the supplied value is truthy (so `""`, `0`
and `undefined` leave them unchanged); every field whose key is absent keeps
its previous value. -/
theorem setProperties_field_update_rules {T : Type} (s : SearchStore T) (p : SearchProps) :
    ((p.groupingKey.isSome = true →
        (s.setProperties p).groupingKey = propRead p.groupingKey) ∧
      (p.groupingKey = none → (s.setProperties p).groupingKey = s.groupingKey)) ∧
    ((p.sortBy.isSome = true → (s.setProperties p).sortBy = propRead p.sortBy) ∧
      (p.sortBy = none → (s.setProperties p).sortBy = s.sortBy)) ∧
    ((∀ b, propRead p.sortAsc = some b → (s.setProperties p).sortAsc = some b) ∧
      (propRead p.sortAsc = none → (s.setProperties p).sortAsc = s.sortAsc)) ∧
    ((truthyStr (propRead p.query) = true → (s.setProperties p).query = propRead p.query) ∧
      (truthyStr (propRead p.query) = false → (s.setProperties p).query = s.query)) ∧
    ((truthyNat (propRead p.top) = true → (s.setProperties p).top = propRead p.top) ∧
      (truthyNat (propRead p.top) = false → (s.setProperties p).top = s.top)) ∧
    ((∀ f, propRead p.selectedFacets = some f → (s.setProperties p).selectedFacets = f) ∧
      (propRead p.selectedFacets = none →
        (s.setProperties p).selectedFacets = s.selectedFacets)) := by
  refine ⟨⟨?_, ?_⟩, ⟨?_, ?_⟩, ⟨?_, ?_⟩, ⟨?_, ?_⟩, ⟨?_, ?_⟩, ?_, ?_⟩ <;>
    first
      | (intro h; simp [SearchStore.setProperties, h])
      | (intro b h; simp [SearchStore.setProperties, h])

/-- C2 amended witness: on a concrete store with `sortAsc = true`, supplying
the defined but non-truthy `sortAsc: false` updates the field. -/
theorem setProperties_field_update_rules_witness :
    (SearchStore.setProperties sortedStore sortAscFalseProps).sortAsc = some false :=
  (setProperties_field_update_rules sortedStore sortAscFalseProps).2.2.1.1 false rfl

/-- C3 counterexample: a search on a store whose `sortAsc` is `undefined`
issues a request with `sortDesc = false` — the direction defaults to
ascending, refuting the claimed descending default (`sortDesc = true`). -/
theorem search_sortDesc_defaults_false :
    plainStore.sortAsc = none ∧
      (SearchStore.search envC plainStore false svcEmpty).requestSortDesc = some false :=
  ⟨rfl, rfl⟩

/-- C3 amended: every request issued by a non-blocked `search` call —
resolved or rejected alike — carries `sortDesc = !sortAsc` when `sortAsc` is
defined, and `sortDesc = false` (ascending default) when `sortAsc` is
`undefined`. -/
theorem search_request_sortDesc_rule {T : Type} (env : JSEnv) (s : SearchStore T)
    (isScroll : Bool) (svc : QueryInput → Option (QueryOutput T))
    (hb : s.blockSearch = false) :
    (SearchStore.search env s isScroll svc).requestSortDesc
      = some (match s.sortAsc with | none => false | some b => !b) := by
  rw [SearchStore.search]
  simp only [hb, Bool.false_eq_true, if_false]
  cases hsvc : svc (SearchStore.buildRequest env s isScroll) with
  | none => simp only [hsvc]; rfl
  | some r => simp only [hsvc]; rfl

/-- C3 amended witness: on a store with `sortAsc = true` the issued request
carries `sortDesc = !true = false`. -/
theorem search_request_sortDesc_rule_witness :
    (SearchStore.search envC ascStore false svcEmpty).requestSortDesc
      = some (match ascStore.sortAsc with | none => false | some b => !b) :=
  search_request_sortDesc_rule envC ascStore false svcEmpty rfl

/-- C6: `toggleAll()` empties the selection set when the number of selected
items equals `currentCount`, and otherwise replaces the selection with every
materialized flat result; in particular with five materialized results a full
selection of five becomes empty and a selection of three becomes all five. -/
theorem toggleAll_clears_or_selects_all {T : Type} [DecidableEq T] (s : SearchStore T) :
    s.toggleAll.selectedList
        = (if s.selectedSize = s.currentCount then [] else s.flatResultList) ∧
      fullSelStore.currentCount = 5 ∧ fullSelStore.selectedSize = 5 ∧
      fullSelStore.toggleAll.selectedList = [] ∧
      partSelStore.selectedSize = 3 ∧
      partSelStore.toggleAll.selectedList = [10, 20, 30, 40, 50] := by
  refine ⟨?_, by decide, by decide, by decide, by decide, by decide⟩
  by_cases h : s.selectedSize = s.currentCount <;> simp [SearchStore.toggleAll, h]

/-- C1 counterexample: on a store holding grouped results (two flattened
items) and an empty flat `list`, `search(isScroll = true)` issues a request
whose `skip` is `0`, not the flat-result-list length `2` — `skip` is computed
from the `list` field, not from the flattened groups. -/
theorem search_scroll_skip_not_flat_length :
    groupedStore.blockSearch = false ∧
      (SearchStore.search envC groupedStore true svcEmpty).requestSkip = some 0 ∧
      groupedStore.flatResultList.length = 2 :=
  ⟨rfl, rfl, rfl⟩

/-- C1 amended: every resolved `search(isScroll)` call issues a request whose
`skip` equals the length of the store's `list` field (which coincides with
the flat result list only when no grouped results are held) when scrolling
and `0` otherwise; and when the response carries a list, the list held after
the response is the old `list` concatenated with the response's list on a
scroll, and the response's list exactly otherwise. -/
theorem search_skip_and_scroll_append {T : Type} (env : JSEnv) (s : SearchStore T)
    (isScroll : Bool) (svc : QueryInput → Option (QueryOutput T)) (req : QueryInput)
    (out : QueryOutput T) (st : SearchStore T) (resp : QueryOutput T) (rl : List T)
    (h : SearchStore.search env s isScroll svc = SearchStore.SearchOutcome.resolved req out st)
    (hsvc : svc req = some resp) (hl : resp.list = some rl) :
    req.skip = (if isScroll then s.list.length else 0) ∧
      st.list = (if isScroll then s.list ++ rl else rl) := by
  rw [SearchStore.search] at h
  cases hb : s.blockSearch with
  | true => simp [hb] at h
  | false =>
    simp only [hb, Bool.false_eq_true, if_false] at h
    cases hsvc2 : svc (SearchStore.buildRequest env s isScroll) with
    | none => simp [hsvc2] at h
    | some r =>
      simp only [hsvc2] at h
      obtain ⟨h1, h2, h3⟩ := SearchStore.SearchOutcome.resolved.inj h
      subst h1
      rw [hsvc2] at hsvc
      obtain rfl := Option.some.inj hsvc
      constructor
      · rfl
      · subst h3
        cases isScroll with
        | true => simp [hl]
        | false => simp [hl]

/-- C1 amended witness: scrolling on a store whose `list` holds two items,
against a service returning one further item, issues `skip = 2` and leaves
`list = [1, 2] ++ [7]`. -/
theorem search_skip_and_scroll_append_witness :
    scrollReq.skip = (if true then scrollStore.list.length else 0) ∧
      scrollFinal.list = (if true then scrollStore.list ++ [7] else [7]) :=
  search_skip_and_scroll_append envC scrollStore true svcScroll scrollReq scrollOut
    scrollFinal scrollResp [7] rfl rfl rfl

/-- Folding the remove-if-selected loop of the group-scoped `toggleAll` over
the group's items never changes the membership of an item outside the
group. -/
theorem mem_foldl_eraseIf {T : Type} [DecidableEq T] (x : T) :
    ∀ (gl l : List T), x ∉ gl →
      ((x ∈ gl.foldl (fun acc item => if acc.contains item then acc.erase item else acc) l)
        ↔ x ∈ l) := by
  intro gl
  induction gl with
  | nil => intro l _; simp
  | cons a gl ih =>
    intro l hx
    have hxa : x ≠ a := fun hc => hx (hc ▸ List.mem_cons_self a gl)
    have hxgl : x ∉ gl := fun hc => hx (List.mem_cons_of_mem a hc)
    simp only [List.foldl_cons]
    rw [ih _ hxgl]
    cases hc : l.contains a with
    | true =>
      simp only [hc, if_true]
      exact List.mem_erase_of_ne hxa
    | false => simp only [hc, Bool.false_eq_true, if_false]

/-- C8: the group-scoped view's `toggleAll` changes the selection status only
of items of that group's list: any item outside the group is selected after
the call exactly when it was selected before, although all groups share one
underlying selection set. -/
theorem groupToggleAll_outside_group_unchanged {T : Type} [DecidableEq T] (s : SearchStore T)
    (groupCode : String) (x : T) (hx : x ∉ s.groupStoreList groupCode) :
    (x ∈ (s.groupToggleAll groupCode).selectedList ↔ x ∈ s.selectedList) := by
  unfold SearchStore.groupToggleAll
  cases hall : (s.groupStoreList groupCode).all (fun item => s.selectedList.contains item) with
  | true =>
    simp only [hall, if_true]
    exact mem_foldl_eraseIf x _ _ hx
  | false =>
    simp only [hall, Bool.false_eq_true, if_false, List.mem_append]
    rw [mem_foldl_eraseIf x _ _ hx]
    constructor
    · rintro (h | h)
      · exact h
      · exact absurd h hx
    · exact Or.inl

/-- C8 witness: on a store with groups `g1 = [1, 2]` and `g2 = [8, 9]`
sharing the selection `[2, 9]`, `toggleAll` on `g1`'s view leaves the
selection status of item 9 (outside `g1`) unchanged. -/
theorem groupToggleAll_outside_group_unchanged_witness :
    9 ∉ twoGroupStore.groupStoreList "g1" ∧
      (9 ∈ (twoGroupStore.groupToggleAll "g1").selectedList ↔
        9 ∈ twoGroupStore.selectedList) :=
  ⟨by decide, groupToggleAll_outside_group_unchanged twoGroupStore "g1" 9 (by decide)⟩

/-- C7: `validate` runs each validator in order and accumulates one message
per failing validator — all of them, not just the first (its `errors` are the
`filterMap` of `validateProperty` over the validator list) — with `isValid`
true exactly when `errors` is empty; in particular `{value: "abc"}` fails a
bare `number` validator, `{value: "42"}` passes `number` with
`{min: 0, max: 100}`, and `{value: 150}` fails `number` with
`{max: 100}`. -/
theorem validate_accumulates_all_failures (env : JSEnv) (p : ValidationProperty)
    (vs : List Validator) :
    (validate env p (some vs)).errors = vs.filterMap (validateProperty env p) ∧
      (validate env p (some vs)).isValid = (validate env p (some vs)).errors.isEmpty ∧
      (∀ e : JSEnv,
        (validate e { name := "", value := .str "abc" } (some [.number none])).isValid
          = false) ∧
      (∀ e : JSEnv,
        (validate e { name := "", value := .str "42" }
            (some [.number (some { min := some 0, max := some 100 })])).isValid = true) ∧
      (∀ e : JSEnv,
        (validate e { name := "", value := .num 150 }
            (some [.number (some { max := some 100 })])).isValid = false) := by
  refine ⟨?_, ?_, fun e => rfl, fun e => rfl, fun e => rfl⟩
  · simp only [validate]
    exact (validate_foldl_eq_filterMap env p vs []).trans (by simp)
  · rw [Bool.eq_iff_iff]
    simp [validate, List.length_eq_zero, List.isEmpty_iff]

/-- Under unique criteria keys, reading the `criteriaErrors` map at a field's
key gives exactly that field's error flag. -/
theorem lookupError_of_mem (env : JSEnv) :
    ∀ (criteria : CriteriaNode), (criteria.map Prod.fst).Nodup →
      ∀ {ke : String × EntityFieldM}, ke ∈ criteria →
        lookupError (criteriaErrors env criteria) ke.1 = critFieldError env ke.2 := by
  intro criteria
  induction criteria with
  | nil => intro _ ke h; cases h
  | cons hd tl ih =>
    intro hnd ke h
    obtain ⟨k0, e0⟩ := hd
    rw [List.map_cons, List.nodup_cons] at hnd
    obtain ⟨hk0, hndtl⟩ := hnd
    rcases List.mem_cons.mp h with heq | htl
    · subst heq
      simp [criteriaErrors, lookupError, List.find?_cons]
    · have hk : k0 ≠ ke.1 := by
        intro hc
        apply hk0
        rw [hc]
        exact List.mem_map.mpr ⟨ke, htl, rfl⟩
      have : lookupError (criteriaErrors env ((k0, e0) :: tl)) ke.1
          = lookupError (criteriaErrors env tl) ke.1 := by
        simp [criteriaErrors, lookupError, List.find?_cons, hk]
      rw [this]
      exact ih hndtl htl

/-- C4: under the (JavaScript-object) invariant of unique field names, the
flattened criteria view contains exactly the criteria fields whose value is
neither the empty string nor `undefined` and that are not currently failing
their configured validators, each mapped to its plain value; in particular
the criteria `{age: "", city: "Paris"}` flatten to `{city: "Paris"}`. -/
theorem flatCriteria_exactly_valid_nonempty_fields (env : JSEnv) (criteria : CriteriaNode)
    (hnd : (criteria.map Prod.fst).Nodup) :
    flatCriteria env criteria
        = (criteria.filter (fun ke =>
              !(ke.2.value = .str "" ∨ ke.2.value = .undef) && !critFieldError env ke.2)).map
            (fun ke => (ke.1, ke.2.value)) ∧
      flatCriteria envC ageCityCriteria = [("city", .str "Paris")] := by
  refine ⟨?_, by decide⟩
  simp only [flatCriteria, toFlatValues]
  rw [List.filter_filter, List.filter_map]
  refine congrArg (List.map _) (List.filter_congr ?_)
  intro x hx
  simp only [Function.comp_apply]
  rw [lookupError_of_mem env criteria hnd hx]

/-- C4 witness: the characterization applied to the concrete age/city
criteria, whose keys are distinct. -/
theorem flatCriteria_exactly_valid_nonempty_fields_witness :
    flatCriteria envC ageCityCriteria
        = (ageCityCriteria.filter (fun ke =>
              !(ke.2.value = .str "" ∨ ke.2.value = .undef) && !critFieldError envC ke.2)).map
            (fun ke => (ke.1, ke.2.value)) ∧
      flatCriteria envC ageCityCriteria = [("city", .str "Paris")] :=
  flatCriteria_exactly_valid_nonempty_fields envC ageCityCriteria (by decide)
